import Mathlib

/-!
# meerkat_asserts: the debugger-assisted assertion report

A shallow embedding of `src/meerkat_asserts/assert.c` and of the `fassert`
wrapper of `src/meerkat_asserts/assert.h`.

* Text is a list of characters.  A C string argument (`const char*`) is given
  by the characters before its terminating NUL.  The buffer `getline` fills is
  raw: it holds every byte of the line, NUL bytes included, and the code looks
  at it through `strcmp` and `%s`, which stop at the first NUL (`cstr`).
* The channel is the list of bytes the reader gets from the pipe before
  end-of-file.
* A process is described by the calls it makes, in order (`Call`), given the
  values its system calls return (`Env`).  The report descriptor is taken to
  be open for writing, so that `fdopen` succeeds.
* The C library's output buffering is modelled by `fwrite`: a stream has a
  mode and a pending buffer, the descriptor receives texts in order.
-/

namespace MeerkatAsserts

/-! ## Definitions

### Text, tags and C strings -/

/-- Text: a list of characters. -/
abbrev Text := List Char

/-- The NUL character, which ends a C string. -/
def NUL : Char := Char.ofNat 0

/-- The six tags of the wire protocol, as the `#define`s give them. -/
def GDB_FORK_FAILED : Text := "<gdbForkFailed/>".toList

def GDB_NO_GDB : Text := "<gdbNotFound/>".toList

def GDB_BT_START : Text := "<gdbBacktrace>".toList

def GDB_BT_END : Text := "</gdbBacktrace>".toList

def GDB_LOCALS_START : Text := "<gdbLocals>".toList

def GDB_LOCALS_END : Text := "</gdbLocals>".toList

/-- The C string held in a buffer: the characters before the first NUL. -/
def cstr (buf : List Char) : Text := buf.takeWhile (fun c => c ≠ NUL)

/-- The test `strcmp(a, b) == 0`: both buffers hold the same C string. -/
def streq (a b : List Char) : Bool := decide (cstr a = cstr b)

/-! ### The reader: `process_gdb_messages`, `process_backtrace`, `process_locals` -/

/-- The call `getline(&line, &line_size, gdb_stream)`: `none` at end-of-file
(a negative return value), otherwise the bytes up to and including the next
newline, or up to end-of-file when no newline is left, and the unread rest. -/
def getline : List Char → Option (List Char × List Char)
  | [] => none
  | c :: cs =>
    if c = '\n' then some ([c], cs)
    else
      match getline cs with
      | none => some ([c], [])
      | some (line, rest) => some (c :: line, rest)

/-- The read loop of `process_backtrace`; each entry of the result is the text
of one `fprintf` call, the second component is what is left unread.  The first
argument bounds the number of `getline` calls; `none` means the bound was hit. -/
def process_backtrace_loop : Nat → List Char → Option (List Text × List Char)
  | 0, _ => none
  | fuel + 1, gdb_stream =>
    match getline gdb_stream with
    | none => some ([], gdb_stream)
    | some (line, rest) =>
      if streq line (GDB_BT_END ++ ['\n']) then some ([], rest)
      else
        (process_backtrace_loop fuel rest).map
          (fun r => (('\t' :: cstr line) :: r.1, r.2))

/-- The function `process_backtrace`: the preamble, then the read loop. -/
def process_backtrace (fuel : Nat) (gdb_stream : List Char) :
    Option (List Text × List Char) :=
  (process_backtrace_loop fuel gdb_stream).map
    (fun r => ("BACKTRACE:\n".toList :: r.1, r.2))

/-- The read loop of `process_locals`. -/
def process_locals_loop : Nat → List Char → Option (List Text × List Char)
  | 0, _ => none
  | fuel + 1, gdb_stream =>
    match getline gdb_stream with
    | none => some ([], gdb_stream)
    | some (line, rest) =>
      if streq line (GDB_LOCALS_END ++ ['\n']) then some ([], rest)
      else
        (process_locals_loop fuel rest).map
          (fun r => (('\t' :: cstr line) :: r.1, r.2))

/-- The function `process_locals`: the preamble naming the function, then the
read loop. -/
def process_locals (function_name : Text) (fuel : Nat) (gdb_stream : List Char) :
    Option (List Text × List Char) :=
  (process_locals_loop fuel gdb_stream).map
    (fun r =>
      (("LOCAL VARIABLES OF ".toList ++ function_name ++ ":\n".toList) :: r.1, r.2))

/-- The read loop of `process_gdb_messages`: the texts written to `out_stream`,
one entry per `fputs`/`fprintf` call. -/
def process_gdb_messages_loop (function_name : Text) :
    Nat → List Char → Option (List Text)
  | 0, _ => none
  | fuel + 1, gdb_stream =>
    match getline gdb_stream with
    | none => some []
    | some (line, rest) =>
      if streq line (GDB_FORK_FAILED ++ ['\n']) then
        some ["assert failed to run fork".toList]
      else if streq line (GDB_NO_GDB ++ ['\n']) then
        some ["Install gdb to get more detailed assert info".toList]
      else
        (if streq line (GDB_BT_START ++ ['\n']) then process_backtrace fuel rest
         else some ([], rest)).bind fun bt =>
        (if streq line (GDB_LOCALS_START ++ ['\n']) then
           process_locals function_name fuel bt.2
         else some ([], bt.2)).bind fun lc =>
        (process_gdb_messages_loop function_name fuel lc.2).map
          (fun out => bt.1 ++ lc.1 ++ out)

/-- The function `process_gdb_messages` run on a channel that delivers
`gdb_stream` and then end-of-file: the texts it writes to `out_stream`. -/
def process_gdb_messages (function_name : Text) (gdb_stream : List Char) :
    Option (List Text) :=
  process_gdb_messages_loop function_name (gdb_stream.length + 1) gdb_stream

/-! ### The processes: `run_gdb`, `__assert_print`, `fassert` -/

/-- The two `FILE*` the code opens for writing on the report descriptor:
`stream` in `__assert_print` and `out_stream` in `process_gdb_messages`. -/
inductive OutFile
  | stream
  | out_stream
  deriving DecidableEq, Repr

/-- The calls of a process, as far as the properties below speak of them. -/
inductive Call
  /-- The call `fdopen(fd, "w")` whose result is the given `FILE*`. -/
  | fdopen_w (f : OutFile) (fd : Int)
  /-- The call `setvbuf(f, NULL, _IONBF, 0)`. -/
  | setvbuf_IONBF (f : OutFile)
  /-- A `fprintf` or `fputs` on `f`; `text` is the text it formats. -/
  | fprintf (f : OutFile) (text : Text)
  | pipe
  | fork
  | close (fd : Int)
  /-- The call `fdopen(fd, "r")` whose result is `gdb_stream`. -/
  | fdopen_r (fd : Int)
  | setlinebuf_gdb_stream
  | fclose_gdb_stream
  /-- The call `waitpid(pid, &gdb_status, 0)`. -/
  | waitpid (pid : Int)
  /-- The call `write(fd, bytes, n)` with `n` the number of bytes. -/
  | write (fd : Int) (bytes : Text)
  | getpid
  /-- The call `open("/dev/null", O_WRONLY)`. -/
  | open_dev_null
  /-- The call `dup2(dev_null, STDERR_FILENO)`. -/
  | dup2_stderr
  /-- The call `execlp(file, argv..., NULL)`. -/
  | execlp (file : Text) (argv : List Text)
  /-- The call `raise(SIGSTOP)`. -/
  | raise_SIGSTOP
  | _exit (status : Int)
  /-- The return of `__assert_print` to its caller. -/
  | ret
  | abort
  /-- A read loop that has not come to an end. -/
  | unfinished
  deriving DecidableEq, Repr

/-- What the system calls return in one process. -/
structure Env where
  /-- The message `strerror` gives for an error number. -/
  strerror : Int → Text
  /-- The value `pipe(pipes)` returns and `errno` after it. -/
  pipe_status : Int
  pipe_errno : Int
  /-- The descriptors `pipes[0]` and `pipes[1]`. -/
  read_pipe : Int
  write_pipe : Int
  /-- The value the first `fork()` returns in this process and `errno` after it. -/
  fork1 : Int
  fork1_errno : Int
  /-- The bytes the channel delivers to the reader before end-of-file. -/
  gdb_stream : List Char
  /-- The value the second `fork()` returns in this process. -/
  fork2 : Int
  /-- The value of `getpid()` in this process. -/
  my_pid : Int
  /-- What `execlp` does: `none` when the image is replaced (no return),
  `some r` when it returns `r`. -/
  execlp_result : Option Int

/-- The conversion `%d` of an `int`. -/
def fmt_d (i : Int) : Text :=
  if i < 0 then '-' :: Nat.toDigits 10 i.natAbs else Nat.toDigits 10 i.natAbs

/-- The conversion `%zu` of a `size_t`. -/
def fmt_zu (n : Nat) : Text := Nat.toDigits 10 n

/-- The call `snprintf(buf, size, ...)`: the formatted text, cut to `size - 1`
characters. -/
def snprintf (size : Nat) (formatted : Text) : Text := formatted.take (size - 1)

/-- The sizes of the two static buffers of `run_gdb`. -/
def pid_str_len : Nat := 32

def log_file_str_len : Nat := 64

/-- The argument list `run_gdb` hands to `execlp`, after the file name. -/
def run_gdb_argv (my_pid pipe_write_fd tracee : Int) : List Text :=
  let pid_str := snprintf pid_str_len (fmt_d tracee)
  let log_file_str := snprintf log_file_str_len
    ("set logging file /proc/".toList ++ fmt_d my_pid ++ "/fd/".toList ++ fmt_d pipe_write_fd)
  ["gdb".toList, "-p".toList, pid_str, "-q".toList, "-batch-silent".toList,
   "-ex".toList, "set pagination off".toList,
   "-ex".toList, "return".toList,
   "-ex".toList, "return".toList,
   "-ex".toList, log_file_str,
   "-ex".toList, "set logging redirect off".toList,
   "-ex".toList, "set logging on".toList,
   "-ex".toList, "echo ".toList ++ GDB_BT_START ++ "\\n".toList,
   "-ex".toList, "bt -entry-values both".toList,
   "-ex".toList, "echo ".toList ++ GDB_BT_END ++ "\\n".toList,
   "-ex".toList, "echo ".toList ++ GDB_LOCALS_START ++ "\\n".toList,
   "-ex".toList, "info locals".toList,
   "-ex".toList, "echo ".toList ++ GDB_LOCALS_END ++ "\\n".toList,
   "-ex".toList, "set logging off".toList,
   "-ex".toList, "kill".toList]

/-- The function `run_gdb`: its calls, and its return value when it returns
(`none` when `execlp` replaced the image). -/
def run_gdb (env : Env) (pipe_write_fd tracee : Int) : List Call × Option Int :=
  ([Call.getpid, Call.open_dev_null, Call.dup2_stderr,
    Call.execlp "gdb".toList (run_gdb_argv env.my_pid pipe_write_fd tracee)],
   match env.execlp_result with
   | none => none
   | some result => some (if result < 0 then result else 0))

/-- The text of the first `fprintf` of `__assert_print`. -/
def header (file function : Text) (line : Nat) (condition message : Text) : Text :=
  "Failed assertion '".toList ++ condition ++ "': ".toList ++ message ++ "\n".toList ++
  "\tat ".toList ++ file ++ ":".toList ++ fmt_zu line ++ "\n".toList ++
  "\tin function ".toList ++ function ++ "\n".toList

/-- The calls of `process_gdb_messages(out_fd, gdb_fd, function_name)` on a
channel delivering `gdb_stream`; it ends in `Call.unfinished` if the read loop
does not come to an end. -/
def process_gdb_messages_calls (out_fd gdb_fd : Int) (function_name : Text)
    (gdb_stream : List Char) : List Call × Bool :=
  match process_gdb_messages function_name gdb_stream with
  | none =>
    ([Call.fdopen_w OutFile.out_stream out_fd, Call.fdopen_r gdb_fd,
      Call.setlinebuf_gdb_stream, Call.unfinished], false)
  | some out =>
    ([Call.fdopen_w OutFile.out_stream out_fd, Call.fdopen_r gdb_fd,
      Call.setlinebuf_gdb_stream] ++ out.map (Call.fprintf OutFile.out_stream) ++
      [Call.fclose_gdb_stream], true)

/-- The function `__assert_print`, as the calls the process makes from its
entry on.  Where the function returns, the list goes on with `Call.ret` and
then `after_return`, what the caller does next; where the process ends in
`_exit` or in the debugger's image, it stops there. -/
def __assert_print (env : Env) (fd : Int) (file function : Text) (line : Nat)
    (condition message : Text) (after_return : List Call) : List Call :=
  [Call.fdopen_w OutFile.stream fd, Call.setvbuf_IONBF OutFile.stream,
   Call.fprintf OutFile.stream (header file function line condition message),
   Call.pipe] ++
  if env.pipe_status ≠ 0 then
    [Call.fprintf OutFile.stream
      ("assert failed to create anonymous pipe: ".toList ++
        env.strerror env.pipe_errno ++ "\n".toList),
     Call.ret] ++ after_return
  else
    [Call.fork] ++
    if env.fork1 < 0 then
      [Call.fprintf OutFile.stream
        ("assert failed to run fork(): ".toList ++
          env.strerror env.fork1_errno ++ "\n".toList),
       Call.ret] ++ after_return
    else if env.fork1 ≠ 0 then
      let reader := process_gdb_messages_calls fd env.read_pipe function env.gdb_stream
      [Call.close env.write_pipe] ++ reader.1 ++
      if reader.2 then [Call.waitpid env.fork1, Call.ret] ++ after_return else []
    else
      [Call.fork] ++
      if env.fork2 < 0 then
        [Call.write env.write_pipe GDB_FORK_FAILED, Call._exit 1]
      else if env.fork2 > 0 then
        let gdb := run_gdb env env.write_pipe env.fork2
        [Call.close env.read_pipe] ++ gdb.1 ++
        match gdb.2 with
        | none => []
        | some gdb_start_status =>
          if gdb_start_status < 0 then
            [Call.write env.write_pipe GDB_NO_GDB, Call._exit 1]
          else [Call._exit 0]
      else
        [Call.raise_SIGSTOP, Call._exit 0]

/-- The statement `fassert(fd, condition, message)`: nothing when the
condition holds, else `__assert_print` and then `abort()`. -/
def fassert (env : Env) (fd : Int) (file function : Text) (line : Nat)
    (condition_text : Text) (condition : Bool) (message : Text) : List Call :=
  if !condition then
    __assert_print env fd file function line condition_text message [Call.abort]
  else []

/-- The statement `stdassert(condition, message)`: `fassert` on descriptor 2. -/
def stdassert (env : Env) (file function : Text) (line : Nat)
    (condition_text : Text) (condition : Bool) (message : Text) : List Call :=
  fassert env 2 file function line condition_text condition message

/-- The bytes a list of calls writes into descriptor `fd` with `write`. -/
def channel_bytes (fd : Int) : List Call → List Char
  | [] => []
  | Call.write fd1 bytes :: cs =>
    if fd1 = fd then bytes ++ channel_bytes fd cs else channel_bytes fd cs
  | _ :: cs => channel_bytes fd cs

/-! ### Notions used to state the properties -/

/-- The lines of a stream, each with its newline when it has one: what the
successive `getline` calls return (`getline_some_spec`). -/
def lines : List Char → List (List Char)
  | [] => []
  | c :: cs =>
    if c = '\n' then [c] :: lines cs
    else
      match lines cs with
      | [] => [[c]]
      | l :: ls => (c :: l) :: ls

/-- Where the reader is: in the loop of `process_gdb_messages`, of
`process_backtrace` or of `process_locals`. -/
inductive ReaderState
  | Idle
  | InBacktraceSection
  | InLocalsSection
  deriving DecidableEq, Repr

/-- What the three read loops write, as one function of the reader's place and
of the lines still to be read. -/
def dispatch (function_name : Text) : ReaderState → List (List Char) → List Text
  | _, [] => []
  | ReaderState.Idle, line :: rest =>
    if streq line (GDB_FORK_FAILED ++ ['\n']) then
      ["assert failed to run fork".toList]
    else if streq line (GDB_NO_GDB ++ ['\n']) then
      ["Install gdb to get more detailed assert info".toList]
    else if streq line (GDB_BT_START ++ ['\n']) then
      "BACKTRACE:\n".toList :: dispatch function_name ReaderState.InBacktraceSection rest
    else if streq line (GDB_LOCALS_START ++ ['\n']) then
      ("LOCAL VARIABLES OF ".toList ++ function_name ++ ":\n".toList) ::
        dispatch function_name ReaderState.InLocalsSection rest
    else dispatch function_name ReaderState.Idle rest
  | ReaderState.InBacktraceSection, line :: rest =>
    if streq line (GDB_BT_END ++ ['\n']) then
      dispatch function_name ReaderState.Idle rest
    else ('\t' :: cstr line) :: dispatch function_name ReaderState.InBacktraceSection rest
  | ReaderState.InLocalsSection, line :: rest =>
    if streq line (GDB_LOCALS_END ++ ['\n']) then
      dispatch function_name ReaderState.Idle rest
    else ('\t' :: cstr line) :: dispatch function_name ReaderState.InLocalsSection rest

/-- A line as `getline` returns it: text without a newline, followed by one
newline, or by nothing at the end of the stream. -/
def LineShape (l : List Char) : Prop :=
  ∃ t : List Char, '\n' ∉ t ∧ (l = t ++ ['\n'] ∨ l = t)

/-- A line that is exactly one of the four tags the reader acts on in Idle,
followed by its newline. -/
def IdleTagLine (l : List Char) : Prop :=
  l = GDB_FORK_FAILED ++ ['\n'] ∨ l = GDB_NO_GDB ++ ['\n'] ∨
  l = GDB_BT_START ++ ['\n'] ∨ l = GDB_LOCALS_START ++ ['\n']

instance : DecidablePred IdleTagLine := fun l => by
  unfold IdleTagLine; infer_instance

/-- Reference, in the words of the specification: the lines of a section are
the lines before the first line equal to the end tag line. -/
def section_body (end_line : List Char) (ls : List (List Char)) : List (List Char) :=
  ls.takeWhile (fun l => decide (l ≠ end_line))

/-- Reference: the lines after the first line equal to the end tag line. -/
def section_after (end_line : List Char) (ls : List (List Char)) : List (List Char) :=
  (ls.dropWhile (fun l => decide (l ≠ end_line))).drop 1

/-- A body line: text ended by its only newline. -/
def BodyLine (l : List Char) : Prop :=
  '\n' ∉ l.dropLast ∧ l.getLast? = some '\n'

instance : DecidablePred BodyLine := fun l => by
  unfold BodyLine; infer_instance

/-! ### The C library's output buffering -/

/-- The buffering modes of `setvbuf`. -/
inductive BufMode
  | IONBF
  | IOLBF
  | IOFBF
  deriving DecidableEq, Repr

/-- An output stream: its mode and the text not yet handed to the descriptor. -/
structure OStream where
  mode : BufMode
  pending : Text
  deriving DecidableEq, Repr

/-- The report descriptor as the C library sees it: whether it is a terminal,
and the size of a stream buffer. -/
structure Device where
  isatty : Bool
  BUFSIZ : Nat

/-- The two streams and what the descriptor has received. -/
structure Stdio where
  stream : OStream
  out_stream : OStream
  delivered : List Text
  deriving DecidableEq, Repr

/-- A stream just opened by `fdopen(fd, "w")`: line buffered on a terminal,
fully buffered otherwise, nothing pending. -/
def fdopen (dev : Device) : OStream :=
  ⟨if dev.isatty then BufMode.IOLBF else BufMode.IOFBF, []⟩

/-- A text handed to the descriptor, when it is not empty. -/
def chunk (t : Text) : List Text := if t = [] then [] else [t]

/-- Writing `text` to a stream: the stream afterwards, and what the descriptor
receives.  Unbuffered: all of it at once.  Line buffered: everything up to the
last newline, once a newline is written.  Otherwise the text stays in the buffer
until the buffer is full. -/
def fwrite (dev : Device) (f : OStream) (text : Text) : OStream × List Text :=
  let all := f.pending ++ text
  match f.mode with
  | BufMode.IONBF => ({ f with pending := [] }, chunk all)
  | BufMode.IOLBF =>
    if '\n' ∈ text then
      ({ f with pending := (all.reverse.takeWhile (fun c => c ≠ '\n')).reverse },
       chunk (all.reverse.dropWhile (fun c => c ≠ '\n')).reverse)
    else if all.length < dev.BUFSIZ then ({ f with pending := all }, [])
    else ({ f with pending := [] }, chunk all)
  | BufMode.IOFBF =>
    if all.length < dev.BUFSIZ then ({ f with pending := all }, [])
    else ({ f with pending := [] }, chunk all)

/-- The stream behind a `FILE*` of the code. -/
def Stdio.get (st : Stdio) : OutFile → OStream
  | OutFile.stream => st.stream
  | OutFile.out_stream => st.out_stream

/-- The streams with the one behind a `FILE*` replaced. -/
def Stdio.set (st : Stdio) (f : OutFile) (v : OStream) : Stdio :=
  match f with
  | OutFile.stream => { st with stream := v }
  | OutFile.out_stream => { st with out_stream := v }

/-- The effect of one call on the streams and the descriptor.  No call of the
code flushes or closes an output stream, and `_exit` flushes nothing. -/
def stdio_step (dev : Device) (st : Stdio) : Call → Stdio
  | Call.fdopen_w f _ => st.set f (fdopen dev)
  | Call.setvbuf_IONBF f => st.set f { st.get f with mode := BufMode.IONBF }
  | Call.fprintf f text =>
    let r := fwrite dev (st.get f) text
    { st.set f r.1 with delivered := st.delivered ++ r.2 }
  | _ => st

/-- The state before any stream is opened. -/
def Stdio.init : Stdio := ⟨⟨BufMode.IOFBF, []⟩, ⟨BufMode.IOFBF, []⟩, []⟩

/-- The streams and the descriptor after a list of calls. -/
def stdio_run (dev : Device) (calls : List Call) : Stdio :=
  calls.foldl (stdio_step dev) Stdio.init

/-- The texts the descriptor has received after a list of calls. -/
def report (dev : Device) (calls : List Call) : List Text :=
  (stdio_run dev calls).delivered

/-- The calls made up to the return of `__assert_print`, that is, before the
caller goes on. -/
def until_return : List Call → List Call
  | [] => []
  | Call.ret :: _ => []
  | c :: cs => c :: until_return cs

/-! ### Sample inputs, 32-bit integers and roles -/

/-- A sample environment: error numbers are rendered by `strerror` as a fixed
text per number. -/
def sample_env : Env where
  strerror := fun e => if e = 24 then "Too many open files".toList
    else if e = 11 then "Resource temporarily unavailable".toList
    else "Unknown error".toList
  pipe_status := 0
  pipe_errno := 0
  read_pipe := 3
  write_pipe := 4
  fork1 := 4242
  fork1_errno := 0
  gdb_stream := []
  fork2 := 4243
  my_pid := 4242
  execlp_result := none

/-- A 32-bit signed integer. -/
def Int32Range (i : Int) : Prop := -2147483648 ≤ i ∧ i ≤ 2147483647

instance : DecidablePred Int32Range := fun i => by
  unfold Int32Range; infer_instance

/-- What a working debugger session sends through the channel. -/
def sample_session : List Char :=
  ("<gdbBacktrace>\n#0  foo (a=2, b=3) at main.c:8\n</gdbBacktrace>\n" ++
    "<gdbLocals>\nc = 5\n</gdbLocals>\n").toList

/-- The environment of the process that calls `run_gdb` when `execlp` fails. -/
def no_debugger_env : Env :=
  { sample_env with fork1 := 0, fork2 := 4243, execlp_result := some (-1) }

/-- The roles of the specification. -/
inductive ProcessRole
  | Reporter
  | Tracee
  | Launcher
  deriving DecidableEq, Repr

/-- The call is `raise(SIGSTOP)`. -/
def Call.is_raise : Call → Bool
  | Call.raise_SIGSTOP => true
  | _ => false

/-- The call is an `execlp`. -/
def Call.is_execlp : Call → Bool
  | Call.execlp _ _ => true
  | _ => false

/-- The call is a `waitpid`. -/
def Call.is_waitpid : Call → Bool
  | Call.waitpid _ => true
  | _ => false

/-- The role a process plays, read off its calls in the words of the
specification: the Tracee halts itself for inspection, the Launcher execs the
external debugger, the Reporter reaps its child after reading the channel. -/
def role_of (calls : List Call) : Option ProcessRole :=
  if calls.any Call.is_raise then some ProcessRole.Tracee
  else if calls.any Call.is_execlp then some ProcessRole.Launcher
  else if calls.any Call.is_waitpid then some ProcessRole.Reporter
  else none

/-- The environment of the process in which the first `fork` returns `p1`. -/
def reporter_env (base : Env) (p1 : Int) : Env :=
  { base with pipe_status := 0, fork1 := p1 }

/-- The environment of the process the first `fork` creates, whose pid is
`p1`, and in which the second `fork` returns `p2`. -/
def first_child_env (base : Env) (p1 p2 : Int) : Env :=
  { base with pipe_status := 0, fork1 := 0, fork2 := p2, my_pid := p1 }

/-- The environment of the process the second `fork` creates, whose pid is
`p2`. -/
def second_child_env (base : Env) (p2 : Int) : Env :=
  { base with pipe_status := 0, fork1 := 0, fork2 := 0, my_pid := p2 }

/-! ## Theorems -/

theorem getline_eq_none {s : List Char} (h : getline s = none) : s = [] := by
  cases s with
  | nil => rfl
  | cons c cs =>
    unfold getline at h
    split_ifs at h
    cases hg : getline cs with
    | none => simp [hg] at h
    | some p => simp [hg] at h

theorem getline_some_spec : ∀ (s l r : List Char), getline s = some (l, r) →
    s = l ++ r ∧ l ≠ [] ∧ lines s = l :: lines r := by
  intro s
  induction s with
  | nil => intro l r h; simp [getline] at h
  | cons c cs ih =>
    intro l r h
    unfold getline at h
    by_cases hc : c = '\n'
    · simp only [hc, if_true, Option.some.injEq, Prod.mk.injEq] at h
      obtain ⟨rfl, rfl⟩ := h
      simp [lines, hc]
    · simp only [hc, if_false] at h
      cases hg : getline cs with
      | none =>
        simp only [hg, Option.some.injEq, Prod.mk.injEq] at h
        obtain ⟨rfl, rfl⟩ := h
        have : cs = [] := getline_eq_none hg
        subst this
        simp [lines, hc]
      | some p =>
        obtain ⟨l1, r1⟩ := p
        simp only [hg, Option.some.injEq, Prod.mk.injEq] at h
        obtain ⟨rfl, rfl⟩ := h
        obtain ⟨h1, _, h3⟩ := ih l1 r1 hg
        refine ⟨by simp [h1], by simp, ?_⟩
        simp [lines, hc, h3]

theorem getline_length_lt {s l r : List Char} (h : getline s = some (l, r)) :
    r.length < s.length := by
  obtain ⟨h1, h2, _⟩ := getline_some_spec s l r h
  subst h1
  have : 0 < l.length := List.length_pos.mpr h2
  simp only [List.length_append]
  omega

theorem process_backtrace_loop_spec (fn : Text) : ∀ (fuel : Nat) (s : List Char),
    s.length < fuel →
    ∃ o r, process_backtrace_loop fuel s = some (o, r) ∧ r.length ≤ s.length ∧
      dispatch fn ReaderState.InBacktraceSection (lines s) =
        o ++ dispatch fn ReaderState.Idle (lines r) := by
  intro fuel
  induction fuel with
  | zero => intro s h; omega
  | succ n ih =>
    intro s h
    unfold process_backtrace_loop
    cases hg : getline s with
    | none =>
      have : s = [] := getline_eq_none hg
      subst this
      exact ⟨[], [], rfl, le_refl _, by simp [lines, dispatch]⟩
    | some p =>
      obtain ⟨l, r⟩ := p
      obtain ⟨h1, h2, h3⟩ := getline_some_spec s l r hg
      have hlt := getline_length_lt hg
      by_cases hE : streq l (GDB_BT_END ++ ['\n']) = true
      · refine ⟨[], r, by simp [hE], by omega, ?_⟩
        rw [h3]; simp [dispatch, hE]
      · obtain ⟨o, r1, e1, e2, e3⟩ := ih r (by omega)
        refine ⟨('\t' :: cstr l) :: o, r1, by simp [hE, e1], by omega, ?_⟩
        rw [h3]; simp [dispatch, hE, e3]

theorem process_locals_loop_spec (fn : Text) : ∀ (fuel : Nat) (s : List Char),
    s.length < fuel →
    ∃ o r, process_locals_loop fuel s = some (o, r) ∧ r.length ≤ s.length ∧
      dispatch fn ReaderState.InLocalsSection (lines s) =
        o ++ dispatch fn ReaderState.Idle (lines r) := by
  intro fuel
  induction fuel with
  | zero => intro s h; omega
  | succ n ih =>
    intro s h
    unfold process_locals_loop
    cases hg : getline s with
    | none =>
      have : s = [] := getline_eq_none hg
      subst this
      exact ⟨[], [], rfl, le_refl _, by simp [lines, dispatch]⟩
    | some p =>
      obtain ⟨l, r⟩ := p
      obtain ⟨h1, h2, h3⟩ := getline_some_spec s l r hg
      have hlt := getline_length_lt hg
      by_cases hE : streq l (GDB_LOCALS_END ++ ['\n']) = true
      · refine ⟨[], r, by simp [hE], by omega, ?_⟩
        rw [h3]; simp [dispatch, hE]
      · obtain ⟨o, r1, e1, e2, e3⟩ := ih r (by omega)
        refine ⟨('\t' :: cstr l) :: o, r1, by simp [hE, e1], by omega, ?_⟩
        rw [h3]; simp [dispatch, hE, e3]

/-- Two different C strings are not both equal to the one in `l`. -/
theorem streq_exclusive {l a b : List Char} (ha : streq l a = true)
    (hab : cstr a ≠ cstr b) : streq l b = false := by
  simp only [streq, decide_eq_true_eq, decide_eq_false_iff_not] at *
  rw [ha]; exact hab

theorem process_gdb_messages_loop_spec (fn : Text) : ∀ (fuel : Nat) (s : List Char),
    s.length < fuel →
    process_gdb_messages_loop fn fuel s = some (dispatch fn ReaderState.Idle (lines s)) := by
  intro fuel
  induction fuel with
  | zero => intro s h; omega
  | succ n ih =>
    intro s h
    unfold process_gdb_messages_loop
    cases hg : getline s with
    | none =>
      have : s = [] := getline_eq_none hg
      subst this
      simp [lines, dispatch]
    | some p =>
      obtain ⟨l, r⟩ := p
      obtain ⟨h1, h2, h3⟩ := getline_some_spec s l r hg
      have hlt := getline_length_lt hg
      rw [h3]
      by_cases hFF : streq l (GDB_FORK_FAILED ++ ['\n']) = true
      · simp [dispatch, hFF]
      by_cases hNG : streq l (GDB_NO_GDB ++ ['\n']) = true
      · simp [dispatch, hFF, hNG]
      by_cases hBS : streq l (GDB_BT_START ++ ['\n']) = true
      · have hLS : streq l (GDB_LOCALS_START ++ ['\n']) = false :=
          streq_exclusive hBS (by decide)
        obtain ⟨o, r1, e1, e2, e3⟩ := process_backtrace_loop_spec fn n r (by omega)
        have e4 := ih r1 (by omega)
        simp [dispatch, hFF, hNG, hBS, hLS, process_backtrace, e1, e3, e4]
      by_cases hLS : streq l (GDB_LOCALS_START ++ ['\n']) = true
      · obtain ⟨o, r1, e1, e2, e3⟩ := process_locals_loop_spec fn n r (by omega)
        have e4 := ih r1 (by omega)
        simp [dispatch, hFF, hNG, hBS, hLS, process_locals, e1, e3, e4]
      · have e4 := ih r (by omega)
        simp [dispatch, hFF, hNG, hBS, hLS, e4]

/-- The reader comes to an end on every channel content, and what it writes is
`dispatch` from `Idle` over the lines. -/
theorem process_gdb_messages_eq (fn : Text) (s : List Char) :
    process_gdb_messages fn s = some (dispatch fn ReaderState.Idle (lines s)) :=
  process_gdb_messages_loop_spec fn (s.length + 1) s (Nat.lt_succ_self _)

theorem lines_shape : ∀ (s : List Char), ∀ l ∈ lines s, LineShape l := by
  intro s
  induction s with
  | nil => intro l hl; simp [lines] at hl
  | cons c cs ih =>
    intro l hl
    unfold lines at hl
    by_cases hc : c = '\n'
    · simp only [hc, if_true, List.mem_cons] at hl
      rcases hl with rfl | hl
      · exact ⟨[], by simp, Or.inl rfl⟩
      · exact ih l hl
    · simp only [hc, if_false] at hl
      cases hls : lines cs with
      | nil =>
        simp only [hls, List.mem_singleton] at hl
        subst hl
        exact ⟨[c], by simpa using Ne.symm hc, Or.inr rfl⟩
      | cons l0 ls =>
        simp only [hls, List.mem_cons] at hl
        rcases hl with rfl | hl
        · obtain ⟨t, ht, h⟩ := ih l0 (by simp [hls])
          refine ⟨c :: t, ?_, ?_⟩
          · simp only [List.mem_cons, not_or]; exact ⟨Ne.symm hc, ht⟩
          · rcases h with h | h
            · left; simp [h]
            · right; simp [h]
        · exact ih l (by simp [hls, hl])

theorem getline_shape {s l r : List Char} (h : getline s = some (l, r)) : LineShape l := by
  obtain ⟨_, _, h3⟩ := getline_some_spec s l r h
  exact lines_shape s l (by simp [h3])

theorem append_newline_inj : ∀ (a b d e : List Char), '\n' ∉ a → '\n' ∉ b →
    a ++ '\n' :: d = b ++ '\n' :: e → a = b ∧ d = e := by
  intro a
  induction a with
  | nil =>
    intro b d e _ hb h
    cases b with
    | nil => simpa using h
    | cons x b =>
      simp only [List.nil_append, List.cons_append, List.cons.injEq] at h
      exact absurd (by simp [← h.1]) hb
  | cons x a ih =>
    intro b d e ha hb h
    cases b with
    | nil =>
      simp only [List.nil_append, List.cons_append, List.cons.injEq] at h
      exact absurd (by simp [h.1]) ha
    | cons y b =>
      simp only [List.cons_append, List.cons.injEq] at h
      simp only [List.mem_cons, not_or] at ha hb
      obtain ⟨e1, e2⟩ := ih b d e ha.2 hb.2 h.2
      exact ⟨by rw [h.1, e1], e2⟩

theorem cstr_of_not_mem {l : List Char} (h : NUL ∉ l) : cstr l = l := by
  unfold cstr
  rw [List.takeWhile_eq_self_iff]
  intro c hc
  simp only [ne_eq, decide_not, Bool.not_eq_true', decide_eq_false_iff_not]
  rintro rfl
  exact h hc

/-- On a line of the stream, `strcmp` against a tag followed by a newline
succeeds exactly when the line is that text. -/
theorem streq_tag_line {l tag : List Char} (hl : LineShape l) (h1 : '\n' ∉ tag)
    (h2 : NUL ∉ tag ++ ['\n']) :
    streq l (tag ++ ['\n']) = true ↔ l = tag ++ ['\n'] := by
  constructor
  · intro h
    simp only [streq, decide_eq_true_eq] at h
    rw [cstr_of_not_mem h2] at h
    have hsplit : ∃ d, l = tag ++ '\n' :: d := by
      have := (List.takeWhile_append_dropWhile (fun c => decide (c ≠ NUL)) l).symm
      unfold cstr at h
      rw [h] at this
      exact ⟨_, by simpa using this⟩
    obtain ⟨d, hd⟩ := hsplit
    obtain ⟨t, ht, h3 | h3⟩ := hl
    · rw [h3] at hd
      have hh : t ++ '\n' :: [] = tag ++ '\n' :: d := by simpa using hd
      obtain ⟨e1, _⟩ := append_newline_inj t tag _ _ ht h1 hh
      rw [h3, e1]
    · exfalso
      apply ht
      rw [← h3, hd]
      simp
  · rintro rfl
    simp [streq]

theorem tag_facts :
    ('\n' ∉ GDB_FORK_FAILED ∧ NUL ∉ GDB_FORK_FAILED ++ ['\n']) ∧
    ('\n' ∉ GDB_NO_GDB ∧ NUL ∉ GDB_NO_GDB ++ ['\n']) ∧
    ('\n' ∉ GDB_BT_START ∧ NUL ∉ GDB_BT_START ++ ['\n']) ∧
    ('\n' ∉ GDB_BT_END ∧ NUL ∉ GDB_BT_END ++ ['\n']) ∧
    ('\n' ∉ GDB_LOCALS_START ∧ NUL ∉ GDB_LOCALS_START ++ ['\n']) ∧
    ('\n' ∉ GDB_LOCALS_END ∧ NUL ∉ GDB_LOCALS_END ++ ['\n']) := by decide

theorem dispatch_idle_skip (fn : Text) (l : List Char) (ls : List (List Char))
    (hl : LineShape l) (h : ¬ IdleTagLine l) :
    dispatch fn ReaderState.Idle (l :: ls) = dispatch fn ReaderState.Idle ls := by
  obtain ⟨⟨a1, a2⟩, ⟨b1, b2⟩, ⟨c1, c2⟩, -, ⟨d1, d2⟩, -⟩ := tag_facts
  simp only [IdleTagLine, not_or] at h
  have hFF : streq l (GDB_FORK_FAILED ++ ['\n']) = false := by
    rw [Bool.eq_false_iff, ne_eq, streq_tag_line hl a1 a2]; exact h.1
  have hNG : streq l (GDB_NO_GDB ++ ['\n']) = false := by
    rw [Bool.eq_false_iff, ne_eq, streq_tag_line hl b1 b2]; exact h.2.1
  have hBS : streq l (GDB_BT_START ++ ['\n']) = false := by
    rw [Bool.eq_false_iff, ne_eq, streq_tag_line hl c1 c2]; exact h.2.2.1
  have hLS : streq l (GDB_LOCALS_START ++ ['\n']) = false := by
    rw [Bool.eq_false_iff, ne_eq, streq_tag_line hl d1 d2]; exact h.2.2.2
  simp [dispatch, hFF, hNG, hBS, hLS]

theorem dispatch_idle_no_tag (fn : Text) : ∀ (ls : List (List Char)),
    (∀ l ∈ ls, LineShape l) → (∀ l ∈ ls, ¬ IdleTagLine l) →
    dispatch fn ReaderState.Idle ls = [] := by
  intro ls
  induction ls with
  | nil => intro _ _; rfl
  | cons l ls ih =>
    intro h1 h2
    rw [dispatch_idle_skip fn l ls (h1 l (by simp)) (h2 l (by simp))]
    exact ih (fun x hx => h1 x (by simp [hx])) (fun x hx => h2 x (by simp [hx]))

/-- C6. Whenever the reader is in Idle with `s` still unread, a line it reads
that is not exactly the ForkFailed, NoDebugger, BacktraceStart or LocalsStart
tag followed by a newline adds nothing to the report and leaves the reader in
Idle: the reader goes on exactly as if it had started in Idle on the rest of
the stream.  A stream none of whose lines is such a tag line makes the reader
write nothing at all (so no section header, hence no section, is opened). -/
theorem idle_line_dropped (fn : Text) (s : List Char) :
    (∀ l rest, getline s = some (l, rest) → ¬ IdleTagLine l →
      process_gdb_messages fn s = process_gdb_messages fn rest) ∧
    ((∀ l ∈ lines s, ¬ IdleTagLine l) → process_gdb_messages fn s = some []) := by
  constructor
  · intro l rest hg hl
    obtain ⟨_, _, h3⟩ := getline_some_spec s l rest hg
    rw [process_gdb_messages_eq, process_gdb_messages_eq, h3,
      dispatch_idle_skip fn l _ (getline_shape hg) hl]
  · intro h
    rw [process_gdb_messages_eq, dispatch_idle_no_tag fn (lines s) (lines_shape s) h]

theorem idle_line_dropped_witness :
    process_gdb_messages "foo".toList
        " <gdbBacktrace>\n</gdbLocals>\n<gdbLocals>\nx = 1\n".toList =
      process_gdb_messages "foo".toList "</gdbLocals>\n<gdbLocals>\nx = 1\n".toList ∧
    process_gdb_messages "foo".toList
        "<gdbBacktrace> \n</gdbBacktrace>\nframe0\n<gdbNotFound/>".toList = some [] :=
  ⟨(idle_line_dropped "foo".toList
      " <gdbBacktrace>\n</gdbLocals>\n<gdbLocals>\nx = 1\n".toList).1
      " <gdbBacktrace>\n".toList "</gdbLocals>\n<gdbLocals>\nx = 1\n".toList
      (by decide) (by decide),
   (idle_line_dropped "foo".toList
      "<gdbBacktrace> \n</gdbBacktrace>\nframe0\n<gdbNotFound/>".toList).2 (by decide)⟩

theorem lines_join : ∀ (s : List Char), (lines s).flatten = s := by
  intro s
  induction s with
  | nil => rfl
  | cons c cs ih =>
    unfold lines
    by_cases hc : c = '\n'
    · simp [hc, ih]
    · simp only [hc, if_false]
      cases hls : lines cs with
      | nil =>
        rw [hls] at ih
        simp only [List.flatten_nil] at ih
        simp [← ih]
      | cons l0 ls =>
        rw [hls] at ih
        simp only [List.flatten_cons] at ih
        simp [ih]

theorem lines_tail {l : List Char} {ls : List (List Char)} {s : List Char}
    (h : lines s = l :: ls) : ∃ r, ls = lines r := by
  cases hg : getline s with
  | none =>
    have : s = [] := getline_eq_none hg
    subst this
    simp [lines] at h
  | some p =>
    obtain ⟨l1, r⟩ := p
    obtain ⟨_, _, h3⟩ := getline_some_spec s l1 r hg
    rw [h3] at h
    simp only [List.cons.injEq] at h
    exact ⟨r, h.2.symm⟩

theorem section_after_lines (e : List Char) : ∀ (ls : List (List Char)),
    (∃ s, ls = lines s) → ∃ r, section_after e ls = lines r := by
  intro ls
  induction ls with
  | nil => intro _; exact ⟨[], rfl⟩
  | cons l ls ih =>
    rintro ⟨s, hs⟩
    have htl := lines_tail hs.symm
    by_cases hl : l = e
    · simpa [section_after, hl] using htl
    · have := ih htl
      simpa [section_after, hl] using this

theorem section_after_join (e : List Char) (s : List Char) :
    lines (section_after e (lines s)).flatten = section_after e (lines s) := by
  obtain ⟨r, hr⟩ := section_after_lines e (lines s) ⟨s, rfl⟩
  rw [hr, lines_join]

theorem dispatch_backtrace_split (fn : Text) : ∀ (ls : List (List Char)),
    (∀ l ∈ ls, LineShape l) →
    dispatch fn ReaderState.InBacktraceSection ls =
      (section_body (GDB_BT_END ++ ['\n']) ls).map (fun l => '\t' :: cstr l) ++
        dispatch fn ReaderState.Idle (section_after (GDB_BT_END ++ ['\n']) ls) := by
  obtain ⟨-, -, -, ⟨a1, a2⟩, -, -⟩ := tag_facts
  intro ls
  induction ls with
  | nil => intro _; simp [dispatch, section_body, section_after]
  | cons l ls ih =>
    intro h
    have hs := streq_tag_line (h l (by simp)) a1 a2
    have ih1 := ih (fun x hx => h x (by simp [hx]))
    by_cases hl : l = GDB_BT_END ++ ['\n']
    · have : streq l (GDB_BT_END ++ ['\n']) = true := hs.mpr hl
      subst hl
      simp [dispatch, this, section_body, section_after]
    · have : streq l (GDB_BT_END ++ ['\n']) = false := by
        rw [Bool.eq_false_iff, ne_eq, hs]; exact hl
      simp only [dispatch, this, section_body, section_after] at ih1 ⊢
      simp [hl, ih1]

theorem dispatch_locals_split (fn : Text) : ∀ (ls : List (List Char)),
    (∀ l ∈ ls, LineShape l) →
    dispatch fn ReaderState.InLocalsSection ls =
      (section_body (GDB_LOCALS_END ++ ['\n']) ls).map (fun l => '\t' :: cstr l) ++
        dispatch fn ReaderState.Idle (section_after (GDB_LOCALS_END ++ ['\n']) ls) := by
  obtain ⟨-, -, -, -, -, ⟨a1, a2⟩⟩ := tag_facts
  intro ls
  induction ls with
  | nil => intro _; simp [dispatch, section_body, section_after]
  | cons l ls ih =>
    intro h
    have hs := streq_tag_line (h l (by simp)) a1 a2
    have ih1 := ih (fun x hx => h x (by simp [hx]))
    by_cases hl : l = GDB_LOCALS_END ++ ['\n']
    · have : streq l (GDB_LOCALS_END ++ ['\n']) = true := hs.mpr hl
      subst hl
      simp [dispatch, this, section_body, section_after]
    · have : streq l (GDB_LOCALS_END ++ ['\n']) = false := by
        rw [Bool.eq_false_iff, ne_eq, hs]; exact hl
      simp only [dispatch, this, section_body, section_after] at ih1 ⊢
      simp [hl, ih1]

theorem map_tab_cstr (ls : List (List Char)) (h : ∀ l ∈ ls, NUL ∉ l) :
    ls.map (fun l => '\t' :: cstr l) = ls.map (fun l => '\t' :: l) := by
  apply List.map_congr_left
  intro l hl
  rw [cstr_of_not_mem (h l hl)]

theorem dispatch_idle_bt_start (fn : Text) (ls : List (List Char)) :
    dispatch fn ReaderState.Idle ((GDB_BT_START ++ ['\n']) :: ls) =
      "BACKTRACE:\n".toList :: dispatch fn ReaderState.InBacktraceSection ls := by
  have h1 : streq (GDB_BT_START ++ ['\n']) (GDB_FORK_FAILED ++ ['\n']) = false := by decide
  have h2 : streq (GDB_BT_START ++ ['\n']) (GDB_NO_GDB ++ ['\n']) = false := by decide
  have h3 : streq (GDB_BT_START ++ ['\n']) (GDB_BT_START ++ ['\n']) = true := by decide
  simp only [dispatch, h1, h2, h3, if_true, Bool.false_eq_true, if_false]

theorem dispatch_idle_locals_start (fn : Text) (ls : List (List Char)) :
    dispatch fn ReaderState.Idle ((GDB_LOCALS_START ++ ['\n']) :: ls) =
      ("LOCAL VARIABLES OF ".toList ++ fn ++ ":\n".toList) ::
        dispatch fn ReaderState.InLocalsSection ls := by
  have h1 : streq (GDB_LOCALS_START ++ ['\n']) (GDB_FORK_FAILED ++ ['\n']) = false := by decide
  have h2 : streq (GDB_LOCALS_START ++ ['\n']) (GDB_NO_GDB ++ ['\n']) = false := by decide
  have h3 : streq (GDB_LOCALS_START ++ ['\n']) (GDB_BT_START ++ ['\n']) = false := by decide
  have h4 : streq (GDB_LOCALS_START ++ ['\n']) (GDB_LOCALS_START ++ ['\n']) = true := by decide
  simp only [dispatch, h1, h2, h3, h4, if_true, Bool.false_eq_true, if_false]

theorem section_body_of_not_mem (e : List Char) (ls : List (List Char)) (h : e ∉ ls) :
    section_body e ls = ls ∧ section_after e ls = [] := by
  have hp : ∀ l ∈ ls, decide (l ≠ e) = true := by
    intro l hl
    simp only [ne_eq, decide_not, Bool.not_eq_true', decide_eq_false_iff_not]
    rintro rfl
    exact h hl
  constructor
  · unfold section_body
    rw [List.takeWhile_eq_self_iff]
    exact hp
  · unfold section_after
    have : List.dropWhile (fun l => decide (l ≠ e)) ls = [] := by
      rw [List.dropWhile_eq_nil_iff]
      exact hp
    rw [this]
    rfl

theorem backtrace_section_eq (fn : Text) (s rest : List Char)
    (hg : getline s = some (GDB_BT_START ++ ['\n'], rest)) :
    process_gdb_messages fn s =
      (process_gdb_messages fn (section_after (GDB_BT_END ++ ['\n']) (lines rest)).flatten).map
        (fun out => "BACKTRACE:\n".toList ::
          (section_body (GDB_BT_END ++ ['\n']) (lines rest)).map (fun l => '\t' :: cstr l) ++
            out) := by
  obtain ⟨_, _, h3⟩ := getline_some_spec s _ rest hg
  rw [process_gdb_messages_eq, process_gdb_messages_eq, h3, section_after_join,
    dispatch_idle_bt_start, dispatch_backtrace_split fn _ (lines_shape rest)]
  rfl

theorem locals_section_eq (fn : Text) (s rest : List Char)
    (hg : getline s = some (GDB_LOCALS_START ++ ['\n'], rest)) :
    process_gdb_messages fn s =
      (process_gdb_messages fn
          (section_after (GDB_LOCALS_END ++ ['\n']) (lines rest)).flatten).map
        (fun out => ("LOCAL VARIABLES OF ".toList ++ fn ++ ":\n".toList) ::
          (section_body (GDB_LOCALS_END ++ ['\n']) (lines rest)).map
            (fun l => '\t' :: cstr l) ++ out) := by
  obtain ⟨_, _, h3⟩ := getline_some_spec s _ rest hg
  rw [process_gdb_messages_eq, process_gdb_messages_eq, h3, section_after_join,
    dispatch_idle_locals_start, dispatch_locals_split fn _ (lines_shape rest)]
  rfl

/-- C3 (amended). When the reader, in Idle, reads the BacktraceStart line
(resp. the LocalsStart line), it writes "BACKTRACE:\n" (resp.
"LOCAL VARIABLES OF <function>:\n"), then every following line up to but
excluding the first line equal to the matching end tag line, each prefixed by
one tab, lines that are other tags included; the end tag line itself is not
written, and what follows it is read from Idle.  If the stream ends before a
matching end tag line, all lines are written and nothing else.  A line is
written as the C string it holds: whole when it holds no NUL byte, else up to
its first NUL byte. -/
theorem section_output (fn : Text) (s rest : List Char) :
    (getline s = some (GDB_BT_START ++ ['\n'], rest) →
      process_gdb_messages fn s =
        (process_gdb_messages fn
            (section_after (GDB_BT_END ++ ['\n']) (lines rest)).flatten).map
          (fun out => "BACKTRACE:\n".toList ::
            (section_body (GDB_BT_END ++ ['\n']) (lines rest)).map
              (fun l => '\t' :: cstr l) ++ out)) ∧
    (getline s = some (GDB_LOCALS_START ++ ['\n'], rest) →
      process_gdb_messages fn s =
        (process_gdb_messages fn
            (section_after (GDB_LOCALS_END ++ ['\n']) (lines rest)).flatten).map
          (fun out => ("LOCAL VARIABLES OF ".toList ++ fn ++ ":\n".toList) ::
            (section_body (GDB_LOCALS_END ++ ['\n']) (lines rest)).map
              (fun l => '\t' :: cstr l) ++ out)) ∧
    (getline s = some (GDB_BT_START ++ ['\n'], rest) →
      GDB_BT_END ++ ['\n'] ∉ lines rest →
      process_gdb_messages fn s =
        some ("BACKTRACE:\n".toList :: (lines rest).map (fun l => '\t' :: cstr l))) ∧
    (getline s = some (GDB_LOCALS_START ++ ['\n'], rest) →
      GDB_LOCALS_END ++ ['\n'] ∉ lines rest →
      process_gdb_messages fn s =
        some (("LOCAL VARIABLES OF ".toList ++ fn ++ ":\n".toList) ::
          (lines rest).map (fun l => '\t' :: cstr l))) ∧
    (∀ ls : List (List Char), (∀ l ∈ ls, NUL ∉ l) →
      ls.map (fun l => '\t' :: cstr l) = ls.map (fun l => '\t' :: l)) := by
  refine ⟨backtrace_section_eq fn s rest, locals_section_eq fn s rest, ?_, ?_, map_tab_cstr⟩
  · intro hg hend
    obtain ⟨e1, e2⟩ := section_body_of_not_mem _ _ hend
    rw [backtrace_section_eq fn s rest hg, e1, e2, process_gdb_messages_eq]
    simp [lines, dispatch]
  · intro hg hend
    obtain ⟨e1, e2⟩ := section_body_of_not_mem _ _ hend
    rw [locals_section_eq fn s rest hg, e1, e2, process_gdb_messages_eq]
    simp [lines, dispatch]

theorem section_output_witness :
    process_gdb_messages "foo".toList
        ("<gdbBacktrace>\n#0 foo\n<gdbLocals>\n</gdbLocals>\n<gdbNotFound/>\n" ++
          "</gdbBacktrace>\njunk\n<gdbLocals>\nc = 5\n").toList =
      some ["BACKTRACE:\n".toList, "\t#0 foo\n".toList, "\t<gdbLocals>\n".toList,
        "\t</gdbLocals>\n".toList, "\t<gdbNotFound/>\n".toList,
        "LOCAL VARIABLES OF foo:\n".toList, "\tc = 5\n".toList] ∧
    process_gdb_messages "foo".toList
        "<gdbLocals>\nc = 5\n</gdbBacktrace>\n</gdbLocals>\n<gdbBacktrace>\n".toList =
      some ["LOCAL VARIABLES OF foo:\n".toList, "\tc = 5\n".toList,
        "\t</gdbBacktrace>\n".toList, "BACKTRACE:\n".toList] ∧
    process_gdb_messages "foo".toList "<gdbBacktrace>\n#0 foo\n#1 bar".toList =
      some ["BACKTRACE:\n".toList, "\t#0 foo\n".toList, "\t#1 bar".toList] ∧
    process_gdb_messages "foo".toList "<gdbLocals>\nc = 5\n</gdbLocals>".toList =
      some ["LOCAL VARIABLES OF foo:\n".toList, "\tc = 5\n".toList,
        "\t</gdbLocals>".toList] ∧
    ["#0 foo\n".toList, "#1 bar".toList].map (fun l => '\t' :: cstr l) =
      ["#0 foo\n".toList, "#1 bar".toList].map (fun l => '\t' :: l) :=
  ⟨((section_output "foo".toList
      ("<gdbBacktrace>\n#0 foo\n<gdbLocals>\n</gdbLocals>\n<gdbNotFound/>\n" ++
        "</gdbBacktrace>\njunk\n<gdbLocals>\nc = 5\n").toList
      ("#0 foo\n<gdbLocals>\n</gdbLocals>\n<gdbNotFound/>\n" ++
        "</gdbBacktrace>\njunk\n<gdbLocals>\nc = 5\n").toList).1
      (by decide)).trans (by decide),
   ((section_output "foo".toList
      "<gdbLocals>\nc = 5\n</gdbBacktrace>\n</gdbLocals>\n<gdbBacktrace>\n".toList
      "c = 5\n</gdbBacktrace>\n</gdbLocals>\n<gdbBacktrace>\n".toList).2.1
      (by decide)).trans (by decide),
   ((section_output "foo".toList "<gdbBacktrace>\n#0 foo\n#1 bar".toList
      "#0 foo\n#1 bar".toList).2.2.1 (by decide) (by decide)).trans (by decide),
   ((section_output "foo".toList "<gdbLocals>\nc = 5\n</gdbLocals>".toList
      "c = 5\n</gdbLocals>".toList).2.2.2.1 (by decide) (by decide)).trans
      (by decide),
   (section_output "foo".toList [] []).2.2.2.2
      ["#0 foo\n".toList, "#1 bar".toList] (by decide)⟩

/-- C3 as stated fails on a section line that holds a NUL byte: `%s` stops at
the NUL, so the line is written only up to it. -/
theorem section_output_counterexample :
    getline "<gdbLocals>\ns = \"a\x00b\"\n</gdbLocals>\n".toList =
      some (GDB_LOCALS_START ++ ['\n'], "s = \"a\x00b\"\n</gdbLocals>\n".toList) ∧
    process_gdb_messages "foo".toList "<gdbLocals>\ns = \"a\x00b\"\n</gdbLocals>\n".toList =
      some ["LOCAL VARIABLES OF foo:\n".toList, "\ts = \"a".toList] ∧
    process_gdb_messages "foo".toList "<gdbLocals>\ns = \"a\x00b\"\n</gdbLocals>\n".toList ≠
      (process_gdb_messages "foo".toList
          (section_after (GDB_LOCALS_END ++ ['\n'])
            (lines "s = \"a\x00b\"\n</gdbLocals>\n".toList)).flatten).map
        (fun out => ("LOCAL VARIABLES OF ".toList ++ "foo".toList ++ ":\n".toList) ::
          (section_body (GDB_LOCALS_END ++ ['\n'])
            (lines "s = \"a\x00b\"\n</gdbLocals>\n".toList)).map (fun l => '\t' :: l) ++
              out) := by
  decide

theorem getline_append_line : ∀ (t s : List Char), '\n' ∉ t →
    getline (t ++ '\n' :: s) = some (t ++ ['\n'], s) := by
  intro t
  induction t with
  | nil => intro s _; simp [getline]
  | cons c t ih =>
    intro s h
    simp only [List.mem_cons, not_or] at h
    have hc : c ≠ '\n' := Ne.symm h.1
    simp [getline, hc, ih s h.2]

theorem lines_append_line (t s : List Char) (h : '\n' ∉ t) :
    lines (t ++ '\n' :: s) = (t ++ ['\n']) :: lines s :=
  (getline_some_spec _ _ _ (getline_append_line t s h)).2.2

theorem lines_body : ∀ (body : List (List Char)) (s : List Char),
    (∀ l ∈ body, BodyLine l) → lines (body.flatten ++ s) = body ++ lines s := by
  intro body
  induction body with
  | nil => intro s _; rfl
  | cons l body ih =>
    intro s h
    obtain ⟨h2, h3⟩ := h l (by simp)
    have hl : l.dropLast ++ ['\n'] = l := List.dropLast_append_getLast? _ (by simp [h3])
    have ih1 := ih s (fun x hx => h x (by simp [hx]))
    have : (l :: body).flatten ++ s = l.dropLast ++ '\n' :: (body.flatten ++ s) := by
      conv_lhs => rw [← hl]
      simp
    rw [this, lines_append_line _ _ h2, ih1, hl]
    rfl

theorem bodyLine_shape {l : List Char} (h : BodyLine l) : LineShape l := by
  obtain ⟨h2, h3⟩ := h
  have hl : l.dropLast ++ ['\n'] = l := List.dropLast_append_getLast? _ (by simp [h3])
  exact ⟨l.dropLast, h2, Or.inl hl.symm⟩

theorem dispatch_backtrace_body (fn : Text) (ls : List (List Char)) :
    ∀ (body : List (List Char)),
    (∀ l ∈ body, BodyLine l ∧ l ≠ GDB_BT_END ++ ['\n']) →
    dispatch fn ReaderState.InBacktraceSection (body ++ (GDB_BT_END ++ ['\n']) :: ls) =
      body.map (fun l => '\t' :: cstr l) ++ dispatch fn ReaderState.Idle ls := by
  intro body
  induction body with
  | nil =>
    intro _
    have : streq (GDB_BT_END ++ ['\n']) (GDB_BT_END ++ ['\n']) = true := by decide
    simp [dispatch, this]
  | cons l body ih =>
    intro h
    obtain ⟨h1, h2⟩ := h l (by simp)
    have ih1 := ih (fun x hx => h x (by simp [hx]))
    have hs : streq l (GDB_BT_END ++ ['\n']) = false := by
      rw [Bool.eq_false_iff, ne_eq,
        streq_tag_line (bodyLine_shape h1) tag_facts.2.2.2.1.1 tag_facts.2.2.2.1.2]
      exact h2
    simp [dispatch, hs, ih1]

/-- C2 (amended). For every sequence of body lines (each ended by its only
newline, none of them the BacktraceEnd line), the stream made of the
BacktraceStart line, the body lines and the BacktraceEnd tag followed by a
newline makes `process_gdb_messages` write exactly "BACKTRACE:\n" and then
each body line prefixed with one tab, nothing else; and the reader is back in
Idle: whatever follows is read as from Idle.  A body line is written as the C
string it holds: whole when it holds no NUL byte, else up to its first NUL. -/
theorem backtrace_stream (fn : Text) (body : List (List Char)) (more : List Char)
    (hbody : ∀ l ∈ body, BodyLine l ∧ l ≠ GDB_BT_END ++ ['\n']) :
    process_gdb_messages fn
        (GDB_BT_START ++ ['\n'] ++ body.flatten ++ (GDB_BT_END ++ ['\n'])) =
      some ("BACKTRACE:\n".toList :: body.map (fun l => '\t' :: cstr l)) ∧
    process_gdb_messages fn
        (GDB_BT_START ++ ['\n'] ++ body.flatten ++ (GDB_BT_END ++ ['\n']) ++ more) =
      (process_gdb_messages fn more).map
        (fun out => "BACKTRACE:\n".toList :: body.map (fun l => '\t' :: cstr l) ++ out) ∧
    ((∀ l ∈ body, NUL ∉ l) →
      body.map (fun l => '\t' :: cstr l) = body.map (fun l => '\t' :: l)) := by
  have key : ∀ m : List Char,
      process_gdb_messages fn
          (GDB_BT_START ++ ['\n'] ++ body.flatten ++ (GDB_BT_END ++ ['\n']) ++ m) =
        (process_gdb_messages fn m).map
          (fun out => "BACKTRACE:\n".toList :: body.map (fun l => '\t' :: cstr l) ++ out) := by
    intro m
    have e1 : GDB_BT_START ++ ['\n'] ++ body.flatten ++ (GDB_BT_END ++ ['\n']) ++ m =
        GDB_BT_START ++ '\n' :: (body.flatten ++ (GDB_BT_END ++ '\n' :: m)) := by simp
    rw [process_gdb_messages_eq, process_gdb_messages_eq, e1,
      lines_append_line _ _ tag_facts.2.2.1.1,
      lines_body body _ (fun l hl => (hbody l hl).1),
      lines_append_line _ _ tag_facts.2.2.2.1.1,
      dispatch_idle_bt_start,
      dispatch_backtrace_body fn _ body hbody]
    rfl
  refine ⟨?_, key more, map_tab_cstr body⟩
  have := key []
  rw [List.append_nil] at this
  rw [this, process_gdb_messages_eq]
  simp [lines, dispatch]

theorem backtrace_stream_witness :
    process_gdb_messages "foo".toList
        "<gdbBacktrace>\nframe0\nframe1\n</gdbBacktrace>\n".toList =
      some ["BACKTRACE:\n".toList, "\tframe0\n".toList, "\tframe1\n".toList] ∧
    process_gdb_messages "foo".toList
        "<gdbBacktrace>\nframe0\nframe1\n</gdbBacktrace>\n<gdbLocals>\nc = 5\n".toList =
      some ["BACKTRACE:\n".toList, "\tframe0\n".toList, "\tframe1\n".toList,
        "LOCAL VARIABLES OF foo:\n".toList, "\tc = 5\n".toList] ∧
    ["frame0\n".toList, "frame1\n".toList].map (fun l => '\t' :: cstr l) =
      ["frame0\n".toList, "frame1\n".toList].map (fun l => '\t' :: l) :=
  ⟨((backtrace_stream "foo".toList ["frame0\n".toList, "frame1\n".toList] []
      (by decide)).1).trans (by decide),
   ((backtrace_stream "foo".toList ["frame0\n".toList, "frame1\n".toList]
      "<gdbLocals>\nc = 5\n".toList (by decide)).2.1).trans (by decide),
   (backtrace_stream "foo".toList ["frame0\n".toList, "frame1\n".toList] []
      (by decide)).2.2 (by decide)⟩

/-- C2 as stated fails on the specification's own example: the end tag, being
the last bytes of the stream, has no newline, is not recognised and is written
as one more body line; the stream then ends inside the section.  With the end
tag followed by a newline, a body line holding a NUL byte is still cut at it. -/
theorem backtrace_stream_counterexample :
    process_gdb_messages "foo".toList
        "<gdbBacktrace>\nframe0\nframe1\n</gdbBacktrace>".toList =
      some ["BACKTRACE:\n".toList, "\tframe0\n".toList, "\tframe1\n".toList,
        "\t</gdbBacktrace>".toList] ∧
    (process_gdb_messages "foo".toList
        "<gdbBacktrace>\nframe0\nframe1\n</gdbBacktrace>".toList).map List.flatten ≠
      some "BACKTRACE:\n\tframe0\n\tframe1\n".toList ∧
    process_gdb_messages "foo".toList
        "<gdbBacktrace>\nfra\x00me0\n</gdbBacktrace>\n".toList =
      some ["BACKTRACE:\n".toList, "\tfra".toList] := by
  decide

theorem stdio_step_delivered (dev : Device) (st : Stdio) (c : Call) :
    ∃ r, (stdio_step dev st c).delivered = st.delivered ++ r := by
  cases c with
  | fdopen_w f fd => cases f <;> exact ⟨[], by simp [stdio_step, Stdio.set]⟩
  | setvbuf_IONBF f => cases f <;> exact ⟨[], by simp [stdio_step, Stdio.set]⟩
  | fprintf f text =>
    exact ⟨(fwrite dev (st.get f) text).2, by cases f <;> simp [stdio_step, Stdio.set]⟩
  | _ => exact ⟨[], by simp [stdio_step]⟩

theorem stdio_foldl_delivered (dev : Device) : ∀ (calls : List Call) (st : Stdio),
    ∃ r, (calls.foldl (stdio_step dev) st).delivered = st.delivered ++ r := by
  intro calls
  induction calls with
  | nil => intro st; exact ⟨[], by simp⟩
  | cons c cs ih =>
    intro st
    obtain ⟨r1, h1⟩ := stdio_step_delivered dev st c
    obtain ⟨r2, h2⟩ := ih (stdio_step dev st c)
    exact ⟨r1 ++ r2, by rw [List.foldl_cons, h2, h1, List.append_assoc]⟩

theorem header_ne_nil (file function : Text) (line : Nat) (condition message : Text) :
    header file function line condition message ≠ [] := by
  simp [header]

theorem header_eq (file function : Text) (line : Nat) (condition message : Text) :
    header file function line condition message =
      "Failed assertion '".toList ++ condition ++ "': ".toList ++ message ++
        "\n\tat ".toList ++ file ++ ":".toList ++ (Nat.repr line).toList ++
        "\n\tin function ".toList ++ function ++ "\n".toList := by
  simp [header, fmt_zu, Nat.repr, List.asString]

/-- The streams and the descriptor once the header is written. -/
theorem stdio_after_header (dev : Device) (fd : Int) (h : Text) (hne : h ≠ []) :
    [Call.fdopen_w OutFile.stream fd, Call.setvbuf_IONBF OutFile.stream,
      Call.fprintf OutFile.stream h].foldl (stdio_step dev) Stdio.init =
    ⟨⟨BufMode.IONBF, []⟩, ⟨BufMode.IOFBF, []⟩, [h]⟩ := by
  simp [stdio_step, Stdio.set, Stdio.get, Stdio.init, fdopen, fwrite, chunk, hne]

/-- C1. On every path (whatever `pipe`, the two `fork` calls, `execlp` and the
channel do), the first text the report descriptor receives from
`__assert_print` is exactly the header: "Failed assertion '", the condition,
"': ", the message, a newline, a tab, "at ", the file, ":", the line in
decimal, a newline, a tab, "in function ", the function, a newline. -/
theorem header_first (dev : Device) (env : Env) (fd : Int) (file function : Text)
    (line : Nat) (condition message : Text) (after_return : List Call) :
    ∃ rest, report dev
        (__assert_print env fd file function line condition message after_return) =
      ("Failed assertion '".toList ++ condition ++ "': ".toList ++ message ++
        "\n\tat ".toList ++ file ++ ":".toList ++ (Nat.repr line).toList ++
        "\n\tin function ".toList ++ function ++ "\n".toList) :: rest := by
  rw [← header_eq]
  unfold report stdio_run __assert_print
  have e : ∀ (a b c d : Call) (t : List Call), [a, b, c, d] ++ t = [a, b, c] ++ (d :: t) := by
    intros; rfl
  rw [e, List.foldl_append,
    stdio_after_header dev fd _ (header_ne_nil file function line condition message)]
  obtain ⟨r, hr⟩ := stdio_foldl_delivered dev
    (Call.pipe ::
      if env.pipe_status ≠ 0 then
        [Call.fprintf OutFile.stream
          ("assert failed to create anonymous pipe: ".toList ++
            env.strerror env.pipe_errno ++ "\n".toList),
         Call.ret] ++ after_return
      else
        [Call.fork] ++
        if env.fork1 < 0 then
          [Call.fprintf OutFile.stream
            ("assert failed to run fork(): ".toList ++
              env.strerror env.fork1_errno ++ "\n".toList),
           Call.ret] ++ after_return
        else if env.fork1 ≠ 0 then
          let reader := process_gdb_messages_calls fd env.read_pipe function env.gdb_stream
          [Call.close env.write_pipe] ++ reader.1 ++
          if reader.2 then [Call.waitpid env.fork1, Call.ret] ++ after_return else []
        else
          [Call.fork] ++
          if env.fork2 < 0 then
            [Call.write env.write_pipe GDB_FORK_FAILED, Call._exit 1]
          else if env.fork2 > 0 then
            let gdb := run_gdb env env.write_pipe env.fork2
            [Call.close env.read_pipe] ++ gdb.1 ++
            match gdb.2 with
            | none => []
            | some gdb_start_status =>
              if gdb_start_status < 0 then
                [Call.write env.write_pipe GDB_NO_GDB, Call._exit 1]
              else [Call._exit 0]
          else
            [Call.raise_SIGSTOP, Call._exit 0])
    ⟨⟨BufMode.IONBF, []⟩, ⟨BufMode.IOFBF, []⟩,
      [header file function line condition message]⟩
  exact ⟨r, hr⟩

/-- C5. When `pipe()` fails, or when it succeeds and the first `fork()`
returns a negative value, the failed assertion makes exactly these calls: the
header is written, then one line naming the failure and ending in a newline,
then `__assert_print` returns and `fassert` calls `abort()`.  Nothing else is
attempted: no `fork` after a failed `pipe`, and on either failure no read of
the channel, no `waitpid`, no debugger.  The report is the header and that
line. -/
theorem early_failure (dev : Device) (envP envF : Env) (fd : Int)
    (file function : Text) (line : Nat) (condition_text message : Text)
    (hP : envP.pipe_status ≠ 0) (hF0 : envF.pipe_status = 0) (hF1 : envF.fork1 < 0) :
    fassert envP fd file function line condition_text false message =
      [Call.fdopen_w OutFile.stream fd, Call.setvbuf_IONBF OutFile.stream,
       Call.fprintf OutFile.stream (header file function line condition_text message),
       Call.pipe,
       Call.fprintf OutFile.stream
         ("assert failed to create anonymous pipe: ".toList ++
           envP.strerror envP.pipe_errno ++ "\n".toList),
       Call.ret, Call.abort] ∧
    report dev (fassert envP fd file function line condition_text false message) =
      [header file function line condition_text message,
       "assert failed to create anonymous pipe: ".toList ++
         envP.strerror envP.pipe_errno ++ "\n".toList] ∧
    fassert envF fd file function line condition_text false message =
      [Call.fdopen_w OutFile.stream fd, Call.setvbuf_IONBF OutFile.stream,
       Call.fprintf OutFile.stream (header file function line condition_text message),
       Call.pipe, Call.fork,
       Call.fprintf OutFile.stream
         ("assert failed to run fork(): ".toList ++
           envF.strerror envF.fork1_errno ++ "\n".toList),
       Call.ret, Call.abort] ∧
    report dev (fassert envF fd file function line condition_text false message) =
      [header file function line condition_text message,
       "assert failed to run fork(): ".toList ++
         envF.strerror envF.fork1_errno ++ "\n".toList] := by
  have tP : fassert envP fd file function line condition_text false message =
      [Call.fdopen_w OutFile.stream fd, Call.setvbuf_IONBF OutFile.stream,
       Call.fprintf OutFile.stream (header file function line condition_text message),
       Call.pipe,
       Call.fprintf OutFile.stream
         ("assert failed to create anonymous pipe: ".toList ++
           envP.strerror envP.pipe_errno ++ "\n".toList),
       Call.ret, Call.abort] := by
    simp [fassert, __assert_print, hP]
  have tF : fassert envF fd file function line condition_text false message =
      [Call.fdopen_w OutFile.stream fd, Call.setvbuf_IONBF OutFile.stream,
       Call.fprintf OutFile.stream (header file function line condition_text message),
       Call.pipe, Call.fork,
       Call.fprintf OutFile.stream
         ("assert failed to run fork(): ".toList ++
           envF.strerror envF.fork1_errno ++ "\n".toList),
       Call.ret, Call.abort] := by
    simp [fassert, __assert_print, hF0, hF1]
  have hh := header_ne_nil file function line condition_text message
  refine ⟨tP, ?_, tF, ?_⟩
  · rw [tP]
    simp [report, stdio_run, stdio_step, Stdio.set, Stdio.get, Stdio.init, fdopen, fwrite,
      chunk, hh]
  · rw [tF]
    simp [report, stdio_run, stdio_step, Stdio.set, Stdio.get, Stdio.init, fdopen, fwrite,
      chunk, hh]

theorem early_failure_witness :
    report ⟨false, 4096⟩
        (fassert { sample_env with pipe_status := -1, pipe_errno := 24 } 2
          "main.c".toList "foo".toList 8 "c == 4".toList false "2 + 2 is not 4".toList) =
      ["Failed assertion 'c == 4': 2 + 2 is not 4\n\tat main.c:8\n\tin function foo\n".toList,
       "assert failed to create anonymous pipe: Too many open files\n".toList] ∧
    report ⟨false, 4096⟩
        (fassert { sample_env with fork1 := -1, fork1_errno := 11 } 2
          "main.c".toList "foo".toList 8 "c == 4".toList false "2 + 2 is not 4".toList) =
      ["Failed assertion 'c == 4': 2 + 2 is not 4\n\tat main.c:8\n\tin function foo\n".toList,
       "assert failed to run fork(): Resource temporarily unavailable\n".toList] :=
  have h := early_failure ⟨false, 4096⟩
    { sample_env with pipe_status := -1, pipe_errno := 24 }
    { sample_env with fork1 := -1, fork1_errno := 11 } 2
    "main.c".toList "foo".toList 8 "c == 4".toList "2 + 2 is not 4".toList
    (by decide) (by decide) (by decide)
  ⟨h.2.1.trans (by decide), h.2.2.2.trans (by decide)⟩

theorem toDigits_length_le (n : Nat) (h : n < 10 ^ 10) : (Nat.toDigits 10 n).length ≤ 10 := by
  have := Nat.repr_length n 10 (by decide) h
  simpa [Nat.repr, List.asString] using this

theorem fmt_d_length (i : Int) (h : Int32Range i) : (fmt_d i).length ≤ 11 := by
  obtain ⟨h1, h2⟩ := h
  have hn : i.natAbs < 10 ^ 10 := by omega
  have := toDigits_length_le i.natAbs hn
  unfold fmt_d
  split_ifs
  · simp only [List.length_cons]; omega
  · omega

theorem snprintf_fits (size : Nat) (t : Text) (h : t.length ≤ size - 1) :
    snprintf size t = t := by
  unfold snprintf
  exact List.take_of_length_le h

/-- The model's `%d` is the decimal rendering of the integer: a minus sign
for a negative value, then the decimal digits of its absolute value. -/
theorem fmt_d_eq_repr (i : Int) : fmt_d i = (Int.repr i).toList := by
  cases i with
  | ofNat m =>
    have h : ¬ (Int.ofNat m < 0) := by
      have : (0 : Int) ≤ Int.ofNat m := Int.ofNat_nonneg m
      omega
    simp [fmt_d, h, Int.repr, Nat.repr, List.asString]
  | negSucc m =>
    have h : Int.negSucc m < 0 := Int.negSucc_lt_zero m
    simp [fmt_d, h, Int.repr, Nat.repr, List.asString, Int.natAbs]

/-- C9. For 32-bit values of the tracee pid, of the pid of the process that
calls `run_gdb` and of the channel's write descriptor, `run_gdb` hands the
debugger exactly: gdb, -p, the tracee pid in decimal, -q, -batch-silent, and
then -ex/command pairs for, in order: set pagination off; return; return;
set logging file /proc/<own pid>/fd/<write descriptor>, both in decimal; set
logging redirect off; set logging on; echo of the BacktraceStart tag;
bt -entry-values both; echo of the BacktraceEnd tag; echo of the LocalsStart
tag; info locals; echo of the LocalsEnd tag; set logging off; kill.  Neither
the pid string nor the logging command is cut by its buffer of 32 resp. 64
bytes.  The decimal rendering is the library's `Int.repr`. -/
theorem run_gdb_command_line (env : Env) (pipe_write_fd tracee : Int)
    (ht : Int32Range tracee) (hp : Int32Range env.my_pid)
    (hf : Int32Range pipe_write_fd) :
    (run_gdb env pipe_write_fd tracee).1 =
      [Call.getpid, Call.open_dev_null, Call.dup2_stderr,
       Call.execlp "gdb".toList
        ["gdb".toList, "-p".toList, (Int.repr tracee).toList, "-q".toList,
         "-batch-silent".toList,
         "-ex".toList, "set pagination off".toList,
         "-ex".toList, "return".toList,
         "-ex".toList, "return".toList,
         "-ex".toList, "set logging file /proc/".toList ++ (Int.repr env.my_pid).toList ++
           "/fd/".toList ++ (Int.repr pipe_write_fd).toList,
         "-ex".toList, "set logging redirect off".toList,
         "-ex".toList, "set logging on".toList,
         "-ex".toList, "echo <gdbBacktrace>\\n".toList,
         "-ex".toList, "bt -entry-values both".toList,
         "-ex".toList, "echo </gdbBacktrace>\\n".toList,
         "-ex".toList, "echo <gdbLocals>\\n".toList,
         "-ex".toList, "info locals".toList,
         "-ex".toList, "echo </gdbLocals>\\n".toList,
         "-ex".toList, "set logging off".toList,
         "-ex".toList, "kill".toList]] := by
  have h1 := fmt_d_length tracee ht
  have h2 := fmt_d_length env.my_pid hp
  have h3 := fmt_d_length pipe_write_fd hf
  have e1 : snprintf pid_str_len (fmt_d tracee) = fmt_d tracee :=
    snprintf_fits _ _ (by simp only [pid_str_len]; omega)
  have e2 : snprintf log_file_str_len
      ("set logging file /proc/".toList ++ fmt_d env.my_pid ++ "/fd/".toList ++
        fmt_d pipe_write_fd) =
      "set logging file /proc/".toList ++ fmt_d env.my_pid ++ "/fd/".toList ++
        fmt_d pipe_write_fd :=
    snprintf_fits _ _ (by
      simp only [log_file_str_len, List.length_append]
      have : "set logging file /proc/".toList.length = 23 := by decide
      have : "/fd/".toList.length = 4 := by decide
      omega)
  simp only [← fmt_d_eq_repr, run_gdb, run_gdb_argv, e1, e2]
  rfl

theorem run_gdb_command_line_witness :
    (run_gdb sample_env 4 4243).1 =
      [Call.getpid, Call.open_dev_null, Call.dup2_stderr,
       Call.execlp "gdb".toList
        ["gdb".toList, "-p".toList, "4243".toList, "-q".toList,
         "-batch-silent".toList,
         "-ex".toList, "set pagination off".toList,
         "-ex".toList, "return".toList,
         "-ex".toList, "return".toList,
         "-ex".toList, "set logging file /proc/4242/fd/4".toList,
         "-ex".toList, "set logging redirect off".toList,
         "-ex".toList, "set logging on".toList,
         "-ex".toList, "echo <gdbBacktrace>\\n".toList,
         "-ex".toList, "bt -entry-values both".toList,
         "-ex".toList, "echo </gdbBacktrace>\\n".toList,
         "-ex".toList, "echo <gdbLocals>\\n".toList,
         "-ex".toList, "info locals".toList,
         "-ex".toList, "echo </gdbLocals>\\n".toList,
         "-ex".toList, "set logging off".toList,
         "-ex".toList, "kill".toList]] ∧
    (run_gdb { sample_env with my_pid := 2147483647 } (-2147483648) (-2147483648)).1 =
      [Call.getpid, Call.open_dev_null, Call.dup2_stderr,
       Call.execlp "gdb".toList
        ["gdb".toList, "-p".toList, "-2147483648".toList, "-q".toList,
         "-batch-silent".toList,
         "-ex".toList, "set pagination off".toList,
         "-ex".toList, "return".toList,
         "-ex".toList, "return".toList,
         "-ex".toList, "set logging file /proc/2147483647/fd/-2147483648".toList,
         "-ex".toList, "set logging redirect off".toList,
         "-ex".toList, "set logging on".toList,
         "-ex".toList, "echo <gdbBacktrace>\\n".toList,
         "-ex".toList, "bt -entry-values both".toList,
         "-ex".toList, "echo </gdbBacktrace>\\n".toList,
         "-ex".toList, "echo <gdbLocals>\\n".toList,
         "-ex".toList, "info locals".toList,
         "-ex".toList, "echo </gdbLocals>\\n".toList,
         "-ex".toList, "set logging off".toList,
         "-ex".toList, "kill".toList]] :=
  ⟨(run_gdb_command_line sample_env 4 4243 (by decide) (by decide) (by decide)).trans
      (by decide),
   (run_gdb_command_line { sample_env with my_pid := 2147483647 } (-2147483648)
      (-2147483648) (by decide) (by decide) (by decide)).trans (by decide)⟩

/-- C7, the code at the failing input.  When the second `fork()` fails, the
process writes the tag without a newline and exits with status 1; the reader,
fed exactly these bytes and then end-of-file, compares the line with the tag
followed by a newline, finds no match and writes nothing, so the report is the
header alone.  Had the tag been followed by a newline, the diagnostic would
have been written. -/
theorem fork_failed_tag_not_recognised :
    __assert_print { sample_env with fork1 := 0, fork2 := -1 } 2 "main.c".toList
        "foo".toList 8 "c == 4".toList "2 + 2 is not 4".toList [Call.abort] =
      [Call.fdopen_w OutFile.stream 2, Call.setvbuf_IONBF OutFile.stream,
       Call.fprintf OutFile.stream
         (header "main.c".toList "foo".toList 8 "c == 4".toList "2 + 2 is not 4".toList),
       Call.pipe, Call.fork, Call.fork,
       Call.write 4 "<gdbForkFailed/>".toList, Call._exit 1] ∧
    channel_bytes 4
        (__assert_print { sample_env with fork1 := 0, fork2 := -1 } 2 "main.c".toList
          "foo".toList 8 "c == 4".toList "2 + 2 is not 4".toList [Call.abort]) =
      "<gdbForkFailed/>".toList ∧
    process_gdb_messages "foo".toList "<gdbForkFailed/>".toList = some [] ∧
    report ⟨true, 4096⟩
        (__assert_print { sample_env with gdb_stream := "<gdbForkFailed/>".toList } 2
          "main.c".toList "foo".toList 8 "c == 4".toList "2 + 2 is not 4".toList
          [Call.abort]) =
      ["Failed assertion 'c == 4': 2 + 2 is not 4\n\tat main.c:8\n\tin function foo\n".toList] ∧
    process_gdb_messages "foo".toList "<gdbForkFailed/>\n".toList =
      some ["assert failed to run fork".toList] := by
  decide

/-- C4, the code at the failing input.  When `execlp` fails, the process
writes the NoDebugger tag without a newline and exits with status 1; the
reader, fed exactly these bytes and then end-of-file, finds no match and
writes nothing: the report is the header alone and has no installation hint.
Had the tag been followed by a newline, the hint would have been written. -/
theorem no_debugger_tag_not_recognised :
    channel_bytes 4
        (__assert_print no_debugger_env 2 "main.c".toList
          "foo".toList 8 "c == 4".toList "2 + 2 is not 4".toList [Call.abort]) =
      "<gdbNotFound/>".toList ∧
    (__assert_print no_debugger_env 2 "main.c".toList
          "foo".toList 8 "c == 4".toList "2 + 2 is not 4".toList [Call.abort]).getLast? =
      some (Call._exit 1) ∧
    process_gdb_messages "foo".toList "<gdbNotFound/>".toList = some [] ∧
    report ⟨true, 4096⟩
        (__assert_print { sample_env with gdb_stream := "<gdbNotFound/>".toList } 2
          "main.c".toList "foo".toList 8 "c == 4".toList "2 + 2 is not 4".toList
          [Call.abort]) =
      ["Failed assertion 'c == 4': 2 + 2 is not 4\n\tat main.c:8\n\tin function foo\n".toList] ∧
    process_gdb_messages "foo".toList "<gdbNotFound/>\n".toList =
      some ["Install gdb to get more detailed assert info".toList] := by
  decide

/-- C8, the code at the failing input.  `process_gdb_messages` opens its own
stream on the report descriptor and leaves it in its default mode.  With the
report sent to a file (not a terminal), when `__assert_print` returns after a
working debugger session the descriptor has received the header only, and both
sections are still in the buffer of `out_stream`.  On a terminal, a text
written without a newline stays in the buffer as well. -/
theorem out_stream_is_buffered :
    report ⟨false, 4096⟩
        (until_return
          (__assert_print { sample_env with gdb_stream := sample_session } 2
            "main.c".toList "foo".toList 8 "c == 4".toList "2 + 2 is not 4".toList
            [Call.abort])) =
      ["Failed assertion 'c == 4': 2 + 2 is not 4\n\tat main.c:8\n\tin function foo\n".toList] ∧
    (stdio_run ⟨false, 4096⟩
        (until_return
          (__assert_print { sample_env with gdb_stream := sample_session } 2
            "main.c".toList "foo".toList 8 "c == 4".toList "2 + 2 is not 4".toList
            [Call.abort]))).out_stream =
      ⟨BufMode.IOFBF,
        ("BACKTRACE:\n\t#0  foo (a=2, b=3) at main.c:8\n" ++
          "LOCAL VARIABLES OF foo:\n\tc = 5\n").toList⟩ ∧
    (stdio_run ⟨true, 4096⟩
        (until_return
          (__assert_print { sample_env with gdb_stream := "<gdbNotFound/>\n".toList } 2
            "main.c".toList "foo".toList 8 "c == 4".toList "2 + 2 is not 4".toList
            [Call.abort]))).out_stream =
      ⟨BufMode.IOLBF, "Install gdb to get more detailed assert info".toList⟩ := by
  decide

/-- C10 (amended). With `p1` the pid of the process the first `fork` creates
and `p2` the pid of the process the second `fork` creates: the process in
which the first `fork` returns 0 is the Launcher; it forks once more and, on
the parent side of that second `fork`, closes the read end and runs the
debugger against `p2`.  The process the second `fork` creates is the Tracee:
it stops itself with `raise(SIGSTOP)` and then exits, closing nothing.  The
Reporter reads the channel and then waits for `p1`, the Launcher. -/
theorem fork_roles (base : Env) (fd : Int) (file function : Text) (line : Nat)
    (condition message : Text) (after_return : List Call) (p1 p2 : Int)
    (h1 : 0 < p1) (h2 : 0 < p2) :
    __assert_print (first_child_env base p1 p2) fd file function line condition message
        after_return =
      [Call.fdopen_w OutFile.stream fd, Call.setvbuf_IONBF OutFile.stream,
       Call.fprintf OutFile.stream (header file function line condition message),
       Call.pipe, Call.fork, Call.fork, Call.close base.read_pipe,
       Call.getpid, Call.open_dev_null, Call.dup2_stderr,
       Call.execlp "gdb".toList (run_gdb_argv p1 base.write_pipe p2)] ++
      (match base.execlp_result with
       | none => []
       | some r =>
         if r < 0 then [Call.write base.write_pipe GDB_NO_GDB, Call._exit 1]
         else [Call._exit 0]) ∧
    __assert_print (second_child_env base p2) fd file function line condition message
        after_return =
      [Call.fdopen_w OutFile.stream fd, Call.setvbuf_IONBF OutFile.stream,
       Call.fprintf OutFile.stream (header file function line condition message),
       Call.pipe, Call.fork, Call.fork, Call.raise_SIGSTOP, Call._exit 0] ∧
    (∃ out, process_gdb_messages function base.gdb_stream = some out ∧
      __assert_print (reporter_env base p1) fd file function line condition message
          after_return =
        [Call.fdopen_w OutFile.stream fd, Call.setvbuf_IONBF OutFile.stream,
         Call.fprintf OutFile.stream (header file function line condition message),
         Call.pipe, Call.fork, Call.close base.write_pipe,
         Call.fdopen_w OutFile.out_stream fd, Call.fdopen_r base.read_pipe,
         Call.setlinebuf_gdb_stream] ++ out.map (Call.fprintf OutFile.out_stream) ++
        [Call.fclose_gdb_stream, Call.waitpid p1, Call.ret] ++ after_return) ∧
    role_of (__assert_print (first_child_env base p1 p2) fd file function line condition
      message []) = some ProcessRole.Launcher ∧
    role_of (__assert_print (second_child_env base p2) fd file function line condition
      message []) = some ProcessRole.Tracee ∧
    role_of (__assert_print (reporter_env base p1) fd file function line condition
      message []) = some ProcessRole.Reporter := by
  have hp2 : ¬ p2 < 0 := by omega
  have hp1 : ¬ p1 < 0 := by omega
  have hp1' : p1 ≠ 0 := by omega
  have hfirst : ∀ k, __assert_print (first_child_env base p1 p2) fd file function line
      condition message k =
      [Call.fdopen_w OutFile.stream fd, Call.setvbuf_IONBF OutFile.stream,
       Call.fprintf OutFile.stream (header file function line condition message),
       Call.pipe, Call.fork, Call.fork, Call.close base.read_pipe,
       Call.getpid, Call.open_dev_null, Call.dup2_stderr,
       Call.execlp "gdb".toList (run_gdb_argv p1 base.write_pipe p2)] ++
      (match base.execlp_result with
       | none => []
       | some r =>
         if r < 0 then [Call.write base.write_pipe GDB_NO_GDB, Call._exit 1]
         else [Call._exit 0]) := by
    intro k
    cases he : base.execlp_result with
    | none => simp [__assert_print, first_child_env, run_gdb, he, hp2, h2]
    | some r =>
      by_cases hr : r < 0
      · simp [__assert_print, first_child_env, run_gdb, he, hp2, h2, hr]
      · simp [__assert_print, first_child_env, run_gdb, he, hp2, h2, hr]
  have hsecond : ∀ k, __assert_print (second_child_env base p2) fd file function line
      condition message k =
      [Call.fdopen_w OutFile.stream fd, Call.setvbuf_IONBF OutFile.stream,
       Call.fprintf OutFile.stream (header file function line condition message),
       Call.pipe, Call.fork, Call.fork, Call.raise_SIGSTOP, Call._exit 0] := by
    intro k
    simp [__assert_print, second_child_env]
  have hrep : ∀ k, __assert_print (reporter_env base p1) fd file function line
      condition message k =
      [Call.fdopen_w OutFile.stream fd, Call.setvbuf_IONBF OutFile.stream,
       Call.fprintf OutFile.stream (header file function line condition message),
       Call.pipe, Call.fork, Call.close base.write_pipe,
       Call.fdopen_w OutFile.out_stream fd, Call.fdopen_r base.read_pipe,
       Call.setlinebuf_gdb_stream] ++
        (dispatch function ReaderState.Idle (lines base.gdb_stream)).map
          (Call.fprintf OutFile.out_stream) ++
        [Call.fclose_gdb_stream, Call.waitpid p1, Call.ret] ++ k := by
    intro k
    simp [__assert_print, reporter_env, process_gdb_messages_calls,
      process_gdb_messages_eq, hp1, hp1']
  refine ⟨hfirst _, hsecond _, ⟨_, process_gdb_messages_eq _ _, hrep _⟩, ?_, ?_, ?_⟩
  · rw [hfirst]
    cases he : base.execlp_result with
    | none => simp [role_of, Call.is_raise, Call.is_execlp]
    | some r =>
      by_cases hr : r < 0
      · simp [role_of, Call.is_raise, Call.is_execlp, hr]
      · simp [role_of, Call.is_raise, Call.is_execlp, hr]
  · rw [hsecond]
    simp [role_of, Call.is_raise]
  · rw [hrep]
    simp [role_of, Call.is_raise, Call.is_execlp, Call.is_waitpid]

theorem fork_roles_witness :
    role_of (__assert_print (first_child_env sample_env 4242 4243) 2 "main.c".toList
      "foo".toList 8 "c == 4".toList "2 + 2 is not 4".toList []) =
        some ProcessRole.Launcher ∧
    role_of (__assert_print (second_child_env sample_env 4243) 2 "main.c".toList
      "foo".toList 8 "c == 4".toList "2 + 2 is not 4".toList []) =
        some ProcessRole.Tracee ∧
    role_of (__assert_print (reporter_env sample_env 4242) 2 "main.c".toList
      "foo".toList 8 "c == 4".toList "2 + 2 is not 4".toList []) =
        some ProcessRole.Reporter :=
  (fork_roles sample_env 2 "main.c".toList "foo".toList 8 "c == 4".toList
    "2 + 2 is not 4".toList [] 4242 4243 (by decide) (by decide)).2.2.2

/-- C10 as stated fails: the process in which the first `fork` returns 0 and
the second a positive pid never calls `raise(SIGSTOP)`; it runs the debugger,
against the pid of the process the second `fork` created.  That second child
runs no debugger: it is the one that stops itself.  The pid the Reporter
waits for is the first child's, the process running the debugger. -/
theorem fork_roles_counterexample :
    role_of (__assert_print (first_child_env sample_env 4242 4243) 2 "main.c".toList
      "foo".toList 8 "c == 4".toList "2 + 2 is not 4".toList [Call.abort]) ≠
        some ProcessRole.Tracee ∧
    Call.raise_SIGSTOP ∉
      __assert_print (first_child_env sample_env 4242 4243) 2 "main.c".toList
        "foo".toList 8 "c == 4".toList "2 + 2 is not 4".toList [Call.abort] ∧
    Call.execlp "gdb".toList (run_gdb_argv 4242 4 4243) ∈
      __assert_print (first_child_env sample_env 4242 4243) 2 "main.c".toList
        "foo".toList 8 "c == 4".toList "2 + 2 is not 4".toList [Call.abort] ∧
    role_of (__assert_print (second_child_env sample_env 4243) 2 "main.c".toList
      "foo".toList 8 "c == 4".toList "2 + 2 is not 4".toList [Call.abort]) ≠
        some ProcessRole.Launcher ∧
    (__assert_print (second_child_env sample_env 4243) 2 "main.c".toList
      "foo".toList 8 "c == 4".toList "2 + 2 is not 4".toList [Call.abort]).any
        Call.is_execlp = false ∧
    Call.raise_SIGSTOP ∈
      __assert_print (second_child_env sample_env 4243) 2 "main.c".toList
        "foo".toList 8 "c == 4".toList "2 + 2 is not 4".toList [Call.abort] ∧
    Call.waitpid 4242 ∈
      __assert_print (reporter_env sample_env 4242) 2 "main.c".toList
        "foo".toList 8 "c == 4".toList "2 + 2 is not 4".toList [Call.abort] := by
  decide

end MeerkatAsserts
